import Mathlib

/-
  Verification of the wlfai-one backend's response-normalization layer and
  role CRUD service, shallowly embedded from:
    backend/app/core/exceptions.py
    backend/utils/response_wrapper.py
    backend/app/services/roles/service.py
    backend/app/api/v1/endpoints/roles.py
    backend/app/schemas/role.py
    backend/app/models/role.py
-/

namespace WlfaiOne

/-- JSON values, the payloads carried inside the response envelope. -/
inductive Json where
  | null : Json
  | bool (b : Bool) : Json
  | num (n : Nat) : Json
  | str (s : String) : Json
  | arr (xs : List Json) : Json
  | obj (fields : List (String × Json)) : Json

/-- The opening brace character, written via its code point to keep brace
characters out of the Lean source text. -/
def lbrace : Char := Char.ofNat 123

/-- The closing brace character. -/
def rbrace : Char := Char.ofNat 125

/-- Python exceptions that the embedded code can raise.  Only KeyError and
ValueError are caught by the formatter's try/except; HTTPException carries an
explicit status code and detail as in fastapi.HTTPException. -/
inductive PyExc where
  | httpException (statusCode : Nat) (detail : String) : PyExc
  | integrityError : PyExc
  | typeError (msg : String) : PyExc
  | indexError : PyExc
  | keyError (k : String) : PyExc
  | valueError : PyExc
deriving DecidableEq

/-- Values appearing in a validation error's ctx mapping (Python ints and
strings); str.format renders them through their string form. -/
inductive PyVal where
  | int (n : Nat) : PyVal
  | str (s : String) : PyVal
deriving DecidableEq

def PyVal.toStr : PyVal → String
  | .int n => toString n
  | .str s => s

/-- Whether needle occurs as a contiguous substring of hay (the Python
expression key in err_type). -/
def charsContains (needle : List Char) : List Char → Bool
  | [] => needle.isPrefixOf []
  | c :: t => needle.isPrefixOf (c :: t) || charsContains needle t

def strContains (hay needle : String) : Bool :=
  charsContains needle.data hay.data

/-- First binding of a key in an association list, mirroring a Python dict
lookup (dict keys are unique, so first binding is the binding). -/
def lookupVal (ctx : List (String × PyVal)) (k : String) : Option PyVal :=
  match ctx.find? (fun p => p.1 == k) with
  | some p => some p.2
  | none => none

/-- CPython str.format called with keyword arguments only, on the fragment of
the replacement-field grammar the code exercises: a doubled brace is an
escape, an empty or all-digit field name asks for a positional argument (none
are passed, so IndexError), a named field is looked up among the keyword
arguments (KeyError when absent), an unterminated field or a stray closing
brace is a ValueError.  The first argument is none in text mode and some acc
while collecting a replacement field's characters (in reverse). -/
def formatScan (ctx : List (String × PyVal)) : Nat → Option (List Char) → List Char → Except PyExc (List Char)
  | _, none, [] => .ok []
  | _, some _, [] => .error .valueError
  | 0, _, _ :: _ => .error .valueError
  | fuel + 1, none, c :: rest =>
    if c = lbrace then
      match rest with
      | [] => .error .valueError
      | c2 :: rest2 =>
        if c2 = lbrace then (formatScan ctx fuel none rest2).map (fun t => lbrace :: t)
        else formatScan ctx fuel (some []) rest
    else if c = rbrace then
      match rest with
      | [] => .error .valueError
      | c2 :: rest2 =>
        if c2 = rbrace then (formatScan ctx fuel none rest2).map (fun t => rbrace :: t)
        else .error .valueError
    else
      (formatScan ctx fuel none rest).map (fun t => c :: t)
  | fuel + 1, some acc, c :: rest =>
    if c = rbrace then
      let f := acc.reverse
      if f.isEmpty || f.all (fun d => d.isDigit) then .error .indexError
      else
        match lookupVal ctx (String.mk f) with
        | none => .error (.keyError (String.mk f))
        | some v => (formatScan ctx fuel none rest).map (fun t => v.toStr.data ++ t)
    else
      formatScan ctx fuel (some (c :: acc)) rest

/-- The scan consumes at least one character per step, so fuel equal to the
template length always outruns the input and the fuel-exhausted arm is never
reached. -/
def pyFormat (template : String) (ctx : List (String × PyVal)) : Except PyExc String :=
  (formatScan ctx template.data.length none template.data).map String.mk

/-- The ERROR_MESSAGES table of exceptions.py, in source (dict insertion)
order; braces inside templates are written via hex escapes. -/
def ERROR_MESSAGES : List (String × String) :=
  [("missing", "is required"),
   ("string_type", "should be a valid string"),
   ("int_parsing", "should be a valid integer, unable to parse string as an integer"),
   ("string_too_short", "should have at least \x7bmin_length\x7d characters"),
   ("string_too_long", "should have at most \x7bmax_length\x7d characters"),
   ("bool_parsing", "should be true or false"),
   ("value_error", "invalid value"),
   ("type_error", "invalid type"),
   ("value_error.missing", "is required"),
   ("type_error.integer", "should be a valid integer"),
   ("type_error.string", "should be a valid string"),
   ("value_error.any_str.min_length", "should have at least \x7blimit_value\x7d characters"),
   ("value_error.any_str.max_length", "should have at most \x7blimit_value\x7d characters"),
   ("type_error.bool", "should be true or false")]

/-- One Pydantic validation error record: location path, error-kind tag,
optional raw message, context mapping.  Integer path segments are modelled
through their rendered string form. -/
structure ValidationErr where
  loc : List String
  type : String
  msg : Option String
  ctx : List (String × PyVal)

/-- Template lookup of exceptions.py: exact match against ERROR_MESSAGES,
then the first entry whose key is a substring of the error kind.  Every table
value is a nonempty string, so Python's truthiness test on the looked-up
template coincides with presence. -/
def lookupTemplate (errType : String) : Option String :=
  match ERROR_MESSAGES.find? (fun p => p.1 == errType) with
  | some p => some p.2
  | none =>
    match ERROR_MESSAGES.find? (fun p => strContains errType p.1) with
    | some p => some p.2
    | none => none

/-- The format_dict construction: a copy of ctx, then limit_value aliased from
min_length or max_length when absent. -/
def buildFormatDict (ctx : List (String × PyVal)) : List (String × PyVal) :=
  let d1 :=
    if (lookupVal ctx "limit_value").isNone then
      match lookupVal ctx "min_length" with
      | some v => ctx ++ [("limit_value", v)]
      | none => ctx
    else ctx
  if (lookupVal d1 "limit_value").isNone then
    match lookupVal ctx "max_length" with
    | some v => d1 ++ [("limit_value", v)]
    | none => d1
  else d1

/-- The body of the per-error loop of get_friendly_error_message.  The Python
source computes the last path segment in both branches of its body/non-body
conditional, so the field name is the last segment, or the literal "field" for
an empty path.  Only KeyError and ValueError from str.format are caught; any
other exception propagates. -/
def friendlyOne (err : ValidationErr) : Except PyExc String :=
  let field := err.loc.getLast?.getD "field"
  let template :=
    match lookupTemplate err.type with
    | some t => t
    | none => err.msg.getD "validation error"
  let formatDict := buildFormatDict err.ctx
  if strContains template "\x7b" then
    match pyFormat template formatDict with
    | .ok s => .ok (field ++ " " ++ s)
    | .error (.keyError _) => .ok (field ++ " " ++ template)
    | .error .valueError => .ok (field ++ " " ++ template)
    | .error e => .error e
  else
    .ok (field ++ " " ++ template)

/-- get_friendly_error_message of exceptions.py: per-error friendly strings in
input order, joined with a comma separator; an uncaught exception inside the
loop aborts the whole call, as in Python. -/
def get_friendly_error_message (errors : List ValidationErr) : Except PyExc String := do
  let msgs ← errors.mapM friendlyOne
  return String.intercalate ", " msgs

/-- An HTTP response: the status line's code and the serialized JSON object
body (field order as emitted). -/
structure HttpResponse where
  statusCode : Nat
  body : List (String × Json)

/-- wrap_response of response_wrapper.py: a JSONResponse whose status line is
code and whose body is the three-field envelope object. -/
def wrap_response (data : Json) (message : String) (code : Nat) : HttpResponse :=
  ⟨code, [("code", Json.num code), ("message", Json.str message), ("data", data)]⟩

/-- The standard_response decorator of response_wrapper.py: the handler's
return value becomes APIResponse(code=200, message, data=result); FastAPI
serializes that model, field order code, message, data, with the route's
default status line 200. -/
def standard_response (message : String) (result : Json) : HttpResponse :=
  ⟨200, [("code", Json.num 200), ("message", Json.str message), ("data", result)]⟩

/-- The StarletteHTTPException handler of exceptions.py: passes the status
code through; an empty (falsy) detail defaults the message. -/
def http_exception_handler (statusCode : Nat) (detail : String) : HttpResponse :=
  wrap_response Json.null (if detail == "" then "HTTP error occurred" else detail) statusCode

/-- The RequestValidationError handler of exceptions.py: a fixed 400 with the
friendly-formatter message; an exception raised by the formatter propagates. -/
def validation_exception_handler (errors : List ValidationErr) : Except PyExc HttpResponse :=
  match get_friendly_error_message errors with
  | .ok m => .ok (wrap_response Json.null m 400)
  | .error e => .error e

/-- The catch-all Exception handler of exceptions.py, applied to the string
form of the exception. -/
def general_exception_handler (excStr : String) : HttpResponse :=
  wrap_response Json.null ("Internal server error: " ++ excStr) 500

/-- One row of the roles table (models/role.py).  Timestamps are abstract
ticks; created_at and updated_at are server-generated (server_default now),
and updated_at carries onupdate now, refreshed by every UPDATE. -/
structure RoleRow where
  id : Nat
  name : String
  description : Option String
  created_by : Option Nat
  created_at : Nat
  updated_by : Option Nat
  updated_at : Nat
  is_active : Bool
deriving DecidableEq

/-- The roles table state: committed rows and the next generated id. -/
structure Db where
  rows : List RoleRow
  nextId : Nat
deriving DecidableEq

def optStr : Option String → Json
  | none => Json.null
  | some s => Json.str s

/-- The dict built from a row returned through ROLE_COLUMNS
(service.py): id, name, description, created_at, is_active, in declaration
order; created_by, updated_by and updated_at are excluded. -/
def projectRow (r : RoleRow) : List (String × Json) :=
  [("id", Json.num r.id),
   ("name", Json.str r.name),
   ("description", optStr r.description),
   ("created_at", Json.num r.created_at),
   ("is_active", Json.bool r.is_active)]

/-- The RoleCreate input schema (schemas/role.py). -/
structure RoleCreate where
  name : String
  description : Option String
  created_by : Option Nat
deriving DecidableEq

/-- The RoleCreate field constraints: name 3 to 50 characters, description at
most 255 characters, created_by at least 1. -/
def RoleCreate.isValid (rc : RoleCreate) : Bool :=
  decide (3 ≤ rc.name.length) && decide (rc.name.length ≤ 50)
  && (match rc.description with
      | none => true
      | some d => decide (d.length ≤ 255))
  && (match rc.created_by with
      | none => true
      | some n => decide (1 ≤ n))

/-- One optional field of an input payload as model_dump exclude_unset sees
it: absent from the request body, explicitly null in the body, or set to a
value.  Both null and set fields appear in the dump; only unset ones are
dropped. -/
inductive PayloadField (α : Type) where
  | unset : PayloadField α
  | null : PayloadField α
  | set (a : α) : PayloadField α
deriving DecidableEq

/-- Whether the field appears in the exclude_unset dump. -/
def PayloadField.isPresent : PayloadField α → Bool
  | .unset => false
  | .null => true
  | .set _ => true

/-- Whether the field is an explicit null in the dump. -/
def PayloadField.isNull : PayloadField α → Bool
  | .null => true
  | _ => false

/-- The RoleUpdate input schema (schemas/role.py): every field is optional
and nullable, so each can be absent, explicitly null, or set. -/
structure RoleUpdate where
  name : PayloadField String
  description : PayloadField String
  updated_by : PayloadField Nat
  is_active : PayloadField Bool
deriving DecidableEq

/-- The INSERT issued by create_role: the unique constraint on name is the
backstop, raising IntegrityError when a row with the same name is already
committed; otherwise the row is created with generated id, server-default
created_at, updated_at and is_active true, created_by from the argument. -/
def insertRole (committed : List RoleRow) (nid : Nat) (role : RoleCreate) (user_id now : Nat) :
    Except PyExc RoleRow :=
  if committed.any (fun r => r.name == role.name) then .error .integrityError
  else .ok ⟨nid, role.name, role.description, some user_id, now, none, now, true⟩

/-- create_role of service.py.  interleaved are rows committed by concurrent
requests between the name-existence check and the INSERT (the §4.5 race
window); the first component of the result is the committed table afterwards,
the second the returned dict or the raised exception.  An IntegrityError from
the INSERT is rolled back and re-raised as HTTPException 400 with detail
Database integrity error. -/
def create_role (db : Db) (interleaved : List RoleRow) (role : RoleCreate) (user_id now : Nat) :
    Db × Except PyExc (List (String × Json)) :=
  if db.rows.any (fun r => r.name == role.name) then
    (db, .error (.httpException 400 ("Role \x27" ++ role.name ++ "\x27 already exists")))
  else
    let committed := db.rows ++ interleaved
    let nid := db.nextId + interleaved.length
    match insertRole committed nid role user_id now with
    | .error .integrityError =>
      (⟨committed, nid⟩, .error (.httpException 400 "Database integrity error"))
    | .error e => (⟨committed, nid⟩, .error e)
    | .ok newRow => (⟨committed ++ [newRow], nid + 1⟩, .ok (projectRow newRow))

/-- get_roles of service.py. -/
def get_roles (db : Db) : List (List (String × Json)) :=
  db.rows.map projectRow

/-- get_role of service.py: the projected first matching row, or None. -/
def get_role (db : Db) (role_id : Nat) : Option (List (String × Json)) :=
  match db.rows.find? (fun r => r.id == role_id) with
  | some r => some (projectRow r)
  | none => none

/-- The row transformation of update_role's UPDATE ... VALUES clause on a
statement that executes: fields present in the payload overwrite (an explicit
null clears the nullable description), updated_by is stamped, and the table's
onupdate clause refreshes updated_at.  Explicit nulls on the NOT NULL columns
name and is_active never reach this point: the statement fails with
IntegrityError first (see update_role). -/
def applyUpdate (ru : RoleUpdate) (user_id now : Nat) (r : RoleRow) : RoleRow :=
  { r with
    name := match ru.name with
            | .set v => v
            | _ => r.name
    description := match ru.description with
                   | .set d => some d
                   | .null => none
                   | .unset => r.description
    is_active := match ru.is_active with
                 | .set b => b
                 | _ => r.is_active
    updated_by := some user_id
    updated_at := now }

/-- The string form of the TypeError Python raises when the values call of
update_role receives updated_by both from the unpacked payload dump and as the
explicit keyword. -/
def updatedByTypeErrorMsg : String :=
  "values() got multiple values for keyword argument \x27updated_by\x27"

/-- update_role of service.py.  Building the call values(**dump,
updated_by=user_id) raises TypeError before the statement executes whenever
updated_by is present in the payload dump — whether set to a value or an
explicit null — because the dump then already contains that keyword.
Otherwise the UPDATE executes: when it matches a row and the payload
explicitly nulls name or is_active (NOT NULL columns of models/role.py), the
statement fails atomically with an uncaught IntegrityError and nothing is
modified; when it matches no row no value is written, so no violation occurs
and None is returned; otherwise every matching row is updated and the first
updated row's projection is returned. -/
def update_role (db : Db) (role_id : Nat) (role : RoleUpdate) (user_id now : Nat) :
    Db × Except PyExc (Option (List (String × Json))) :=
  if role.updated_by.isPresent then
    (db, .error (.typeError updatedByTypeErrorMsg))
  else
    match db.rows.find? (fun r => r.id == role_id) with
    | none => (db, .ok none)
    | some r =>
      if role.name.isNull || role.is_active.isNull then
        (db, .error .integrityError)
      else
        (⟨db.rows.map (fun s => if s.id == role_id then applyUpdate role user_id now s else s),
          db.nextId⟩,
         .ok (some (projectRow (applyUpdate role user_id now r))))

/-- The row transformation of update_role_status: is_active flipped to its
boolean complement, updated_by stamped, updated_at refreshed by onupdate. -/
def toggleRow (user_id now : Nat) (r : RoleRow) : RoleRow :=
  { r with is_active := !r.is_active, updated_by := some user_id, updated_at := now }

/-- update_role_status of service.py. -/
def update_role_status (db : Db) (role_id : Nat) (user_id now : Nat) :
    Db × Option (List (String × Json)) :=
  match db.rows.find? (fun r => r.id == role_id) with
  | none => (db, none)
  | some r =>
    (⟨db.rows.map (fun s => if s.id == role_id then toggleRow user_id now s else s),
      db.nextId⟩,
     some (projectRow (toggleRow user_id now r)))

/-- The hardcoded authenticated-user stub of endpoints/roles.py. -/
def CURRENT_USER_ID : Nat := 1

def optData : Option (List (String × Json)) → Json
  | none => Json.null
  | some d => Json.obj d

/-- How an exception escaping a route body reaches the global handlers of
exceptions.py: an HTTPException is dispatched to the Starlette handler, every
other exception to the catch-all handler over its string form. -/
def PyExc.strForm : PyExc → String
  | .httpException _ d => d
  | .integrityError => "IntegrityError"
  | .typeError m => m
  | .indexError => "Replacement index 0 out of range for positional args tuple"
  | .keyError k => k
  | .valueError => "ValueError"

def handleRouteExc : PyExc → HttpResponse
  | .httpException s d => http_exception_handler s d
  | e => general_exception_handler e.strForm

/-- POST /roles/ (endpoints/roles.py): the decorated create handler. -/
def create_role_route (db : Db) (interleaved : List RoleRow) (role : RoleCreate) (now : Nat) :
    Db × HttpResponse :=
  match create_role db interleaved role CURRENT_USER_ID now with
  | (db2, .ok d) => (db2, standard_response "Role created successfully" (Json.obj d))
  | (db2, .error e) => (db2, handleRouteExc e)

/-- GET /roles/ (endpoints/roles.py). -/
def read_roles_route (db : Db) : HttpResponse :=
  standard_response "Roles fetched successfully" (Json.arr ((get_roles db).map Json.obj))

/-- GET /roles/id (endpoints/roles.py): None from the service is returned to
the decorator unchanged. -/
def read_role_route (db : Db) (role_id : Nat) : HttpResponse :=
  standard_response "Role fetched successfully" (optData (get_role db role_id))

/-- PUT /roles/id (endpoints/roles.py). -/
def update_role_route (db : Db) (role_id : Nat) (role : RoleUpdate) (now : Nat) :
    Db × HttpResponse :=
  match update_role db role_id role CURRENT_USER_ID now with
  | (db2, .ok res) => (db2, standard_response "Role updated successfully" (optData res))
  | (db2, .error e) => (db2, handleRouteExc e)

/-- PATCH /roles/id/status (endpoints/roles.py). -/
def update_role_status_route (db : Db) (role_id : Nat) (now : Nat) : Db × HttpResponse :=
  match update_role_status db role_id CURRENT_USER_ID now with
  | (db2, res) => (db2, standard_response "Role status updated successfully" (optData res))

/-! Theorems -/

/-- The value of the message field of a response body. -/
def msgOf (r : HttpResponse) : Option Json :=
  (r.body.find? (fun p => p.1 == "message")).map Prod.snd

/-- The value of the code field of a response body. -/
def codeField (r : HttpResponse) : Option Json :=
  (r.body.find? (fun p => p.1 == "code")).map Prod.snd

/-- The value of the data field of a response body. -/
def dataField (r : HttpResponse) : Option Json :=
  (r.body.find? (fun p => p.1 == "data")).map Prod.snd

/-- C1: the global error classifier maps a failure carrying an explicit
status code and detail to that status code with the detail as message,
defaulting to HTTP error occurred when the detail is empty; a
request-validation failure to status 400 with the friendly-formatter message;
and every other exception to status 500 with Internal server error: followed
by the exception's string form. -/
theorem classifier_maps_failures (s : Nat) (d : String) (errs : List ValidationErr)
    (m t : String) (hm : get_friendly_error_message errs = .ok m) :
    ((http_exception_handler s d).statusCode = s
      ∧ msgOf (http_exception_handler s d) =
          some (Json.str (if d == "" then "HTTP error occurred" else d)))
    ∧ (∃ resp, validation_exception_handler errs = .ok resp
        ∧ resp.statusCode = 400 ∧ msgOf resp = some (Json.str m))
    ∧ ((general_exception_handler t).statusCode = 500
      ∧ msgOf (general_exception_handler t) =
          some (Json.str ("Internal server error: " ++ t))) := by
  refine ⟨⟨rfl, rfl⟩, ⟨wrap_response Json.null m 400, ?_, rfl, rfl⟩, rfl, rfl⟩
  simp [validation_exception_handler, hm]

/-- Witness for C1 at concrete inputs for each of the three branches. -/
theorem classifier_maps_failures_witness :
    (((http_exception_handler 418 "").statusCode = 418
      ∧ msgOf (http_exception_handler 418 "") =
          some (Json.str (if "" == "" then "HTTP error occurred" else "")))
    ∧ (∃ resp,
        validation_exception_handler [⟨["body", "name"], "missing", some "Field required", []⟩] =
          .ok resp
        ∧ resp.statusCode = 400 ∧ msgOf resp = some (Json.str "name is required"))
    ∧ ((general_exception_handler "boom").statusCode = 500
      ∧ msgOf (general_exception_handler "boom") =
          some (Json.str ("Internal server error: " ++ "boom")))) :=
  classifier_maps_failures 418 "" [⟨["body", "name"], "missing", some "Field required", []⟩]
    "name is required" "boom" rfl

/-- C3: every response — the wrap_response envelope used by all three
exception handlers, and the route decorator's success envelope — is a JSON
object with exactly the fields code, message and data; the body's code equals
the HTTP status line; and an absent payload is serialized as the JSON null
value of the data field, never omitted. -/
theorem envelope_shape_invariant (data : Json) (msg : String) (code s : Nat) (d t : String)
    (errs : List ValidationErr) (m : String) (res : Json)
    (hm : get_friendly_error_message errs = .ok m) :
    ((wrap_response data msg code).body.map Prod.fst = ["code", "message", "data"]
      ∧ (wrap_response data msg code).statusCode = code
      ∧ codeField (wrap_response data msg code) = some (Json.num code)
      ∧ dataField (wrap_response data msg code) = some data)
    ∧ ((standard_response msg res).body.map Prod.fst = ["code", "message", "data"]
      ∧ (standard_response msg res).statusCode = 200
      ∧ codeField (standard_response msg res) = some (Json.num 200)
      ∧ dataField (standard_response msg res) = some res)
    ∧ ((http_exception_handler s d).body.map Prod.fst = ["code", "message", "data"]
      ∧ codeField (http_exception_handler s d) =
          some (Json.num (http_exception_handler s d).statusCode)
      ∧ dataField (http_exception_handler s d) = some Json.null)
    ∧ ((general_exception_handler t).body.map Prod.fst = ["code", "message", "data"]
      ∧ codeField (general_exception_handler t) =
          some (Json.num (general_exception_handler t).statusCode)
      ∧ dataField (general_exception_handler t) = some Json.null)
    ∧ (∀ resp, validation_exception_handler errs = .ok resp →
        resp.body.map Prod.fst = ["code", "message", "data"]
        ∧ resp.statusCode = 400
        ∧ codeField resp = some (Json.num resp.statusCode)
        ∧ dataField resp = some Json.null) := by
  refine ⟨⟨rfl, rfl, rfl, rfl⟩, ⟨rfl, rfl, rfl, rfl⟩, ⟨rfl, rfl, rfl⟩, ⟨rfl, rfl, rfl⟩, ?_⟩
  intro resp hresp
  simp only [validation_exception_handler, hm] at hresp
  cases hresp
  exact ⟨rfl, rfl, rfl, rfl⟩

/-- Witness for C3 at concrete inputs, covering all five producers. -/
theorem envelope_shape_invariant_witness :
    (((wrap_response Json.null "ok" 207).body.map Prod.fst = ["code", "message", "data"]
      ∧ (wrap_response Json.null "ok" 207).statusCode = 207
      ∧ codeField (wrap_response Json.null "ok" 207) = some (Json.num 207)
      ∧ dataField (wrap_response Json.null "ok" 207) = some Json.null)
    ∧ ((standard_response "ok" (Json.num 3)).body.map Prod.fst = ["code", "message", "data"]
      ∧ (standard_response "ok" (Json.num 3)).statusCode = 200
      ∧ codeField (standard_response "ok" (Json.num 3)) = some (Json.num 200)
      ∧ dataField (standard_response "ok" (Json.num 3)) = some (Json.num 3))
    ∧ ((http_exception_handler 404 "gone").body.map Prod.fst = ["code", "message", "data"]
      ∧ codeField (http_exception_handler 404 "gone") =
          some (Json.num (http_exception_handler 404 "gone").statusCode)
      ∧ dataField (http_exception_handler 404 "gone") = some Json.null)
    ∧ ((general_exception_handler "oops").body.map Prod.fst = ["code", "message", "data"]
      ∧ codeField (general_exception_handler "oops") =
          some (Json.num (general_exception_handler "oops").statusCode)
      ∧ dataField (general_exception_handler "oops") = some Json.null)
    ∧ (∀ resp,
        validation_exception_handler [⟨["body", "name"], "missing", none, []⟩] = .ok resp →
        resp.body.map Prod.fst = ["code", "message", "data"]
        ∧ resp.statusCode = 400
        ∧ codeField resp = some (Json.num resp.statusCode)
        ∧ dataField resp = some Json.null)) :=
  envelope_shape_invariant Json.null "ok" 207 404 "gone" "oops"
    [⟨["body", "name"], "missing", none, []⟩] "name is required" (Json.num 3) rfl

/-- The C5 failing input: an error record whose kind matches no table entry
and whose raw message contains an empty replacement field. -/
def braceMsgErr : ValidationErr :=
  ⟨["body", "x"], "custom_unknown_kind", some "bad \x7b\x7d text", []⟩

/-- C5: refuted on the code — when the failure kind matches no table entry,
the raw message becomes the template, and a positional placeholder in it makes
str.format raise IndexError, which the except (KeyError, ValueError) clause
does not catch, so get_friendly_error_message raises instead of returning a
joined string. -/
theorem formatter_uncaught_indexerror :
    get_friendly_error_message [braceMsgErr] = .error .indexError := rfl

/-- A sample committed role row. -/
def adminRow : RoleRow := ⟨1, "Admin", none, some 1, 0, none, 0, true⟩

/-- C2 counterexample: with an empty table at check time and a concurrent
insert of Admin committing inside the race window, the duplicate surfaces as
IntegrityError and is re-raised as status 400 with detail Database integrity
error — not the already-exists message the claim requires for this path. -/
theorem create_duplicate_integrity_counterexample :
    (create_role ⟨[], 1⟩ [adminRow] ⟨"Admin", none, none⟩ 1 5).2 =
      .error (.httpException 400 "Database integrity error")
    ∧ "Database integrity error" ≠ "Role \x27Admin\x27 already exists" :=
  ⟨rfl, by decide⟩

/-- C2 amended: a duplicate name always yields status 400 and the create call
never inserts a row: when the pre-insert lookup finds the name, the rejection
detail is Role name already exists; when the duplicate is committed only
inside the race window, the insert's IntegrityError is caught and re-raised
as status 400 with detail Database integrity error — never an internal 500. -/
theorem create_duplicate_amended (db : Db) (inter : List RoleRow) (role : RoleCreate)
    (uid now : Nat) :
    (db.rows.any (fun r => r.name == role.name) = true →
      create_role db inter role uid now =
        (db, .error (.httpException 400 ("Role \x27" ++ role.name ++ "\x27 already exists"))))
    ∧ (db.rows.any (fun r => r.name == role.name) = false →
       (db.rows ++ inter).any (fun r => r.name == role.name) = true →
      create_role db inter role uid now =
        (⟨db.rows ++ inter, db.nextId + inter.length⟩,
         .error (.httpException 400 "Database integrity error")))
    ∧ (∀ db2 e, create_role db inter role uid now = (db2, .error e) →
        db2.rows = db.rows ∨ db2.rows = db.rows ++ inter) := by
  refine ⟨?_, ?_, ?_⟩
  · intro h
    simp [create_role, h]
  · intro h1 h2
    simp [create_role, h1, insertRole, h2]
  · intro db2 e h
    by_cases h1 : db.rows.any (fun r => r.name == role.name) = true
    · simp [create_role, h1] at h
      left
      rw [← h.1]
    · simp only [Bool.not_eq_true] at h1
      by_cases h2 : (db.rows ++ inter).any (fun r => r.name == role.name) = true
      · simp [create_role, h1, insertRole, h2] at h
        right
        rw [← h.1]
      · simp only [Bool.not_eq_true] at h2
        simp [create_role, h1, insertRole, h2] at h

/-- Witness for C2's amended theorem, exercising all three conjuncts at
concrete inputs. -/
theorem create_duplicate_amended_witness :
    (create_role ⟨[adminRow], 2⟩ [] ⟨"Admin", none, none⟩ 1 7 =
      (⟨[adminRow], 2⟩,
       .error (.httpException 400 ("Role \x27" ++ "Admin" ++ "\x27 already exists"))))
    ∧ (create_role ⟨[], 5⟩ [adminRow] ⟨"Admin", none, none⟩ 1 7 =
      (⟨[] ++ [adminRow], 5 + [adminRow].length⟩,
       .error (.httpException 400 "Database integrity error")))
    ∧ ([adminRow] = ([] : List RoleRow) ∨ [adminRow] = [] ++ [adminRow]) := by
  refine ⟨(create_duplicate_amended ⟨[adminRow], 2⟩ [] ⟨"Admin", none, none⟩ 1 7).1 rfl,
    (create_duplicate_amended ⟨[], 5⟩ [adminRow] ⟨"Admin", none, none⟩ 1 7).2.1 rfl rfl, ?_⟩
  exact (create_duplicate_amended ⟨[], 5⟩ [adminRow] ⟨"Admin", none, none⟩ 1 7).2.2
    ⟨[] ++ [adminRow], 5 + [adminRow].length⟩ (.httpException 400 "Database integrity error")
    ((create_duplicate_amended ⟨[], 5⟩ [adminRow] ⟨"Admin", none, none⟩ 1 7).2.1 rfl rfl)

/-- C4: for an id with no matching row, GET /roles/id — and likewise
PUT /roles/id and PATCH /roles/id/status — returns status 200 with data null
and the route's success message: the decorator does not special-case the
absence sentinel.  The PUT payload leaves updated_by unset, the only payload
shape under which the update executes at all (see C9). -/
theorem absent_id_gives_200_null (db : Db) (rid now : Nat) (ru : RoleUpdate)
    (habs : db.rows.find? (fun r => r.id == rid) = none)
    (hub : ru.updated_by = .unset) :
    read_role_route db rid =
      ⟨200, [("code", Json.num 200), ("message", Json.str "Role fetched successfully"),
             ("data", Json.null)]⟩
    ∧ update_role_route db rid ru now =
      (db, ⟨200, [("code", Json.num 200), ("message", Json.str "Role updated successfully"),
                  ("data", Json.null)]⟩)
    ∧ update_role_status_route db rid now =
      (db, ⟨200, [("code", Json.num 200),
                  ("message", Json.str "Role status updated successfully"),
                  ("data", Json.null)]⟩) := by
  refine ⟨?_, ?_, ?_⟩
  · simp [read_role_route, get_role, habs, standard_response, optData]
  · simp [update_role_route, update_role, habs, hub, PayloadField.isPresent,
      standard_response, optData]
  · simp [update_role_status_route, update_role_status, habs, standard_response, optData]

/-- Witness for C4 on a one-row table and an id that matches no row. -/
theorem absent_id_gives_200_null_witness :
    read_role_route ⟨[adminRow], 2⟩ 99 =
      ⟨200, [("code", Json.num 200), ("message", Json.str "Role fetched successfully"),
             ("data", Json.null)]⟩
    ∧ update_role_route ⟨[adminRow], 2⟩ 99 ⟨.unset, .set "x", .unset, .unset⟩ 3 =
      (⟨[adminRow], 2⟩,
       ⟨200, [("code", Json.num 200), ("message", Json.str "Role updated successfully"),
              ("data", Json.null)]⟩)
    ∧ update_role_status_route ⟨[adminRow], 2⟩ 99 3 =
      (⟨[adminRow], 2⟩,
       ⟨200, [("code", Json.num 200),
              ("message", Json.str "Role status updated successfully"),
              ("data", Json.null)]⟩) :=
  absent_id_gives_200_null ⟨[adminRow], 2⟩ 99 3 ⟨.unset, .set "x", .unset, .unset⟩ rfl rfl

/-- Auxiliary: an UPDATE ... WHERE id = rid rewrites the matching rows in
place, so a subsequent lookup by the same id finds the rewritten first match,
provided the rewrite preserves ids. -/
theorem find?_map_matching (rows : List RoleRow) (rid : Nat) (f : RoleRow → RoleRow)
    (hid : ∀ s, (f s).id = s.id) (r : RoleRow)
    (h : rows.find? (fun s => s.id == rid) = some r) :
    (rows.map (fun s => if s.id == rid then f s else s)).find? (fun s => s.id == rid) =
      some (f r) := by
  induction rows with
  | nil => simp at h
  | cons a t ih =>
    by_cases ha : (a.id == rid) = true
    · simp only [List.find?, ha] at h
      injection h with h2
      subst h2
      simp [List.find?, ha, hid]
    · simp only [Bool.not_eq_true] at ha
      simp only [List.find?, ha] at h
      simpa [List.find?, ha] using ih h

/-- C6 counterexample: the projection the role endpoints serve omits
created_by — a concrete GET by id yields a dict whose keys are exactly id,
name, description, created_at and is_active, with no created_by. -/
theorem role_projection_counterexample :
    get_role ⟨[adminRow], 2⟩ 1 = some (projectRow adminRow)
    ∧ (projectRow adminRow).map Prod.fst =
        ["id", "name", "description", "created_at", "is_active"]
    ∧ ¬ ("created_by" ∈ (projectRow adminRow).map Prod.fst) :=
  ⟨rfl, rfl, by decide⟩

/-- C6 amended: every role dict returned in the data of create, list,
get-by-id, update and toggle-status has exactly the keys id, name,
description, created_at and is_active; created_by is excluded along with
updated_by and updated_at. -/
theorem role_projection_amended (db : Db) (inter : List RoleRow) (rc : RoleCreate)
    (ru : RoleUpdate) (uid now rid : Nat) (r : RoleRow) :
    (projectRow r).map Prod.fst = ["id", "name", "description", "created_at", "is_active"]
    ∧ (∀ x ∈ get_roles db,
        x.map Prod.fst = ["id", "name", "description", "created_at", "is_active"])
    ∧ (∀ d, get_role db rid = some d →
        d.map Prod.fst = ["id", "name", "description", "created_at", "is_active"])
    ∧ (∀ db2 d, create_role db inter rc uid now = (db2, .ok d) →
        d.map Prod.fst = ["id", "name", "description", "created_at", "is_active"])
    ∧ (∀ db2 d, update_role db rid ru uid now = (db2, .ok (some d)) →
        d.map Prod.fst = ["id", "name", "description", "created_at", "is_active"])
    ∧ (∀ db2 d, update_role_status db rid uid now = (db2, some d) →
        d.map Prod.fst = ["id", "name", "description", "created_at", "is_active"]) := by
  refine ⟨rfl, ?_, ?_, ?_, ?_, ?_⟩
  · intro x hx
    obtain ⟨s, _, rfl⟩ := List.mem_map.mp hx
    rfl
  · intro d hd
    unfold get_role at hd
    cases hfind : (db.rows.find? fun s => s.id == rid) with
    | none => rw [hfind] at hd; cases hd
    | some s => rw [hfind] at hd; injection hd with h2; subst h2; rfl
  · intro db2 d h
    by_cases h1 : db.rows.any (fun s => s.name == rc.name) = true
    · simp [create_role, h1] at h
    · simp only [Bool.not_eq_true] at h1
      by_cases h2 : (db.rows ++ inter).any (fun s => s.name == rc.name) = true
      · simp [create_role, h1, insertRole, h2] at h
      · simp only [Bool.not_eq_true] at h2
        simp [create_role, h1, insertRole, h2] at h
        rw [← h.2]
        rfl
  · intro db2 d h
    by_cases hub : ru.updated_by.isPresent = true
    · simp [update_role, hub] at h
    · simp only [Bool.not_eq_true] at hub
      cases hfind : (db.rows.find? fun s => s.id == rid) with
      | none => simp [update_role, hub, hfind] at h
      | some s =>
        by_cases hnull : (ru.name.isNull || ru.is_active.isNull) = true
        · simp [update_role, hub, hfind, hnull] at h
        · simp only [Bool.not_eq_true] at hnull
          simp [update_role, hub, hfind, hnull] at h
          rw [← h.2]
          rfl
  · intro db2 d h
    cases hfind : (db.rows.find? fun s => s.id == rid) with
    | none => simp [update_role_status, hfind] at h
    | some s =>
      simp [update_role_status, hfind] at h
      rw [← h.2]
      rfl

/-- Witness for C6's amended theorem at concrete inputs for each operation. -/
theorem role_projection_amended_witness :
    (projectRow adminRow).map Prod.fst = ["id", "name", "description", "created_at", "is_active"]
    ∧ (∀ d, get_role ⟨[adminRow], 2⟩ 1 = some d →
        d.map Prod.fst = ["id", "name", "description", "created_at", "is_active"])
    ∧ (∀ db2 d, create_role ⟨[adminRow], 2⟩ [] ⟨"Editor", none, none⟩ 1 4 = (db2, .ok d) →
        d.map Prod.fst = ["id", "name", "description", "created_at", "is_active"]) := by
  have h := role_projection_amended ⟨[adminRow], 2⟩ [] ⟨"Editor", none, none⟩
    ⟨.unset, .unset, .unset, .unset⟩ 1 4 1 adminRow
  exact ⟨h.1, h.2.2.1, h.2.2.2.1⟩

/-- C7 counterexample, two failure modes of the claim at concrete inputs.
First, a description-only update also refreshes the updated_at column through
the table's onupdate clause: updating the sample row, whose updated_at is 0,
at tick 5 leaves a row whose updated_at is 5, so more than the description and
the updated_by stamp changed.  Second, a schema-valid payload that explicitly
nulls is_active — a field present in the payload — does not modify that field:
the UPDATE sets a NOT NULL column to null, fails with an uncaught
IntegrityError, modifies nothing, returns no row, and surfaces as a 500. -/
theorem update_desc_only_counterexample :
    (update_role ⟨[adminRow], 2⟩ 1 ⟨.unset, .set "x", .unset, .unset⟩ 1 5).1.rows =
      [⟨1, "Admin", some "x", some 1, 0, some 1, 5, true⟩]
    ∧ adminRow.updated_at = 0
    ∧ (5 : Nat) ≠ 0
    ∧ update_role ⟨[adminRow], 2⟩ 1 ⟨.unset, .unset, .unset, .null⟩ 1 5 =
        (⟨[adminRow], 2⟩, .error .integrityError)
    ∧ (update_role_route ⟨[adminRow], 2⟩ 1 ⟨.unset, .unset, .unset, .null⟩ 5).2.statusCode =
        500 :=
  ⟨rfl, rfl, by decide, rfl, rfl⟩

/-- C7 amended: for an existing role, an update whose payload sets only
description to a string changes only the description, the updated_by stamp
and the server-refreshed updated_at timestamp: name, is_active, id,
created_by and created_at are unchanged.  In general, for a payload that
leaves updated_by unset and does not explicitly null name or is_active,
exactly the payload-present fields plus those two audit stamps are modified
(an explicit null clears the nullable description), rows with other ids are
untouched, the updated row's public projection is returned, and a nonexistent
id yields the absence sentinel; a payload that explicitly nulls name or
is_active makes the UPDATE violate a NOT NULL column, raising an uncaught
integrity error that surfaces as a 500 with nothing modified and no
projection returned. -/
theorem update_partial_frame (db : Db) (rid uid now : Nat) (ru : RoleUpdate) (r : RoleRow)
    (hub : ru.updated_by = .unset)
    (hname : ru.name.isNull = false)
    (hact : ru.is_active.isNull = false)
    (hfind : db.rows.find? (fun s => s.id == rid) = some r) :
    (update_role db rid ru uid now).2 = .ok (some (projectRow (applyUpdate ru uid now r)))
    ∧ (ru.name = .unset → (applyUpdate ru uid now r).name = r.name)
    ∧ (∀ v, ru.name = .set v → (applyUpdate ru uid now r).name = v)
    ∧ (ru.is_active = .unset → (applyUpdate ru uid now r).is_active = r.is_active)
    ∧ (∀ b, ru.is_active = .set b → (applyUpdate ru uid now r).is_active = b)
    ∧ (ru.description = .unset → (applyUpdate ru uid now r).description = r.description)
    ∧ (∀ d, ru.description = .set d → (applyUpdate ru uid now r).description = some d)
    ∧ (ru.description = .null → (applyUpdate ru uid now r).description = none)
    ∧ (applyUpdate ru uid now r).id = r.id
    ∧ (applyUpdate ru uid now r).created_by = r.created_by
    ∧ (applyUpdate ru uid now r).created_at = r.created_at
    ∧ (applyUpdate ru uid now r).updated_by = some uid
    ∧ (applyUpdate ru uid now r).updated_at = now
    ∧ (update_role db rid ru uid now).1.rows =
        db.rows.map (fun s => if s.id == rid then applyUpdate ru uid now s else s)
    ∧ (∀ s ∈ db.rows, (s.id == rid) = false → s ∈ (update_role db rid ru uid now).1.rows)
    ∧ (∀ rid2, db.rows.find? (fun s => s.id == rid2) = none →
        (update_role db rid2 ru uid now).2 = .ok none)
    ∧ (∀ ru2 : RoleUpdate, ru2.updated_by = .unset →
        (ru2.name.isNull = true ∨ ru2.is_active.isNull = true) →
        update_role db rid ru2 uid now = (db, .error .integrityError)
        ∧ (update_role_route db rid ru2 now).1 = db
        ∧ (update_role_route db rid ru2 now).2.statusCode = 500) := by
  refine ⟨?_, ?_, ?_, ?_, ?_, ?_, ?_, ?_, rfl, rfl, rfl, rfl, rfl, ?_, ?_, ?_, ?_⟩
  · simp [update_role, hub, PayloadField.isPresent, hfind, hname, hact]
  · intro h; simp [applyUpdate, h]
  · intro v h; simp [applyUpdate, h]
  · intro h; simp [applyUpdate, h]
  · intro b h; simp [applyUpdate, h]
  · intro h; simp [applyUpdate, h]
  · intro d h; simp [applyUpdate, h]
  · intro h; simp [applyUpdate, h]
  · simp [update_role, hub, PayloadField.isPresent, hfind, hname, hact]
  · intro s hs hne
    simp only [update_role, hub, PayloadField.isPresent, Bool.false_eq_true, if_false,
      hfind, hname, hact, Bool.or_self]
    exact List.mem_map.mpr ⟨s, hs, by simp [hne]⟩
  · intro rid2 habs
    simp [update_role, hub, PayloadField.isPresent, habs]
  · intro ru2 hub2 hor
    have hcond : (ru2.name.isNull || ru2.is_active.isNull) = true := by
      cases hor with
      | inl h => simp [h]
      | inr h => simp [h]
    refine ⟨?_, ?_, ?_⟩
    · simp [update_role, hub2, PayloadField.isPresent, hfind, hcond]
    · simp [update_role_route, update_role, hub2, PayloadField.isPresent, hfind, hcond,
        handleRouteExc, general_exception_handler, PyExc.strForm]
    · simp [update_role_route, update_role, hub2, PayloadField.isPresent, hfind, hcond,
        handleRouteExc, general_exception_handler, PyExc.strForm, wrap_response]

/-- Witness for C7's amended theorem: a description-only update of the sample
row, plus an explicit-null is_active payload hitting the integrity-error
path. -/
theorem update_partial_frame_witness :
    (update_role ⟨[adminRow], 2⟩ 1 ⟨.unset, .set "x", .unset, .unset⟩ 1 5).2 =
      .ok (some (projectRow (applyUpdate ⟨.unset, .set "x", .unset, .unset⟩ 1 5 adminRow)))
    ∧ (applyUpdate ⟨.unset, .set "x", .unset, .unset⟩ 1 5 adminRow).name = adminRow.name
    ∧ (applyUpdate ⟨.unset, .set "x", .unset, .unset⟩ 1 5 adminRow).is_active =
        adminRow.is_active
    ∧ (applyUpdate ⟨.unset, .set "x", .unset, .unset⟩ 1 5 adminRow).description = some "x"
    ∧ (applyUpdate ⟨.unset, .set "x", .unset, .unset⟩ 1 5 adminRow).updated_by = some 1
    ∧ update_role ⟨[adminRow], 2⟩ 1 ⟨.unset, .unset, .unset, .null⟩ 1 5 =
        (⟨[adminRow], 2⟩, .error .integrityError) := by
  have h := update_partial_frame ⟨[adminRow], 2⟩ 1 1 5 ⟨.unset, .set "x", .unset, .unset⟩
    adminRow rfl rfl rfl rfl
  obtain ⟨c1, c2, c3, c4, c5, c6, c7, c8, c9, c10, c11, c12, c13, c14, c15, c16, c17⟩ := h
  exact ⟨c1, c2 rfl, c4 rfl, c7 "x" rfl, c12,
    (c17 ⟨.unset, .unset, .unset, .null⟩ rfl (Or.inr rfl)).1⟩

/-- C8: for an existing role, toggle-status flips is_active to its boolean
complement and stamps updated_by; toggling twice restores the original
is_active value (the toggle is an involution on is_active); a nonexistent id
returns the absence sentinel. -/
theorem toggle_status_involution (db : Db) (rid uid uid2 now now2 : Nat) (r : RoleRow)
    (hfind : db.rows.find? (fun s => s.id == rid) = some r) :
    (update_role_status db rid uid now).2 = some (projectRow (toggleRow uid now r))
    ∧ (toggleRow uid now r).is_active = !r.is_active
    ∧ (toggleRow uid now r).updated_by = some uid
    ∧ (update_role_status (update_role_status db rid uid now).1 rid uid2 now2).2 =
        some (projectRow (toggleRow uid2 now2 (toggleRow uid now r)))
    ∧ (toggleRow uid2 now2 (toggleRow uid now r)).is_active = r.is_active
    ∧ (∀ rid2, db.rows.find? (fun s => s.id == rid2) = none →
        (update_role_status db rid2 uid now).2 = none) := by
  have hstep : ∀ (db2 : Db) (u n : Nat) (r2 : RoleRow),
      db2.rows.find? (fun s => s.id == rid) = some r2 →
      (update_role_status db2 rid u n).2 = some (projectRow (toggleRow u n r2)) := by
    intro db2 u n r2 hf
    simp [update_role_status, hf]
  have hfind2 : ((update_role_status db rid uid now).1.rows.find?
      (fun s => s.id == rid)) = some (toggleRow uid now r) := by
    simp only [update_role_status, hfind]
    exact find?_map_matching db.rows rid (toggleRow uid now) (fun s => rfl) r hfind
  refine ⟨hstep db uid now r hfind, rfl, rfl, hstep _ uid2 now2 _ hfind2, ?_, ?_⟩
  · simp [toggleRow]
  · intro rid2 habs
    simp [update_role_status, habs]

/-- Witness for C8: toggling the sample row once and twice. -/
theorem toggle_status_involution_witness :
    (update_role_status ⟨[adminRow], 2⟩ 1 1 3).2 =
      some (projectRow (toggleRow 1 3 adminRow))
    ∧ (toggleRow 1 3 adminRow).is_active = !adminRow.is_active
    ∧ (update_role_status (update_role_status ⟨[adminRow], 2⟩ 1 1 3).1 1 1 4).2 =
        some (projectRow (toggleRow 1 4 (toggleRow 1 3 adminRow)))
    ∧ (toggleRow 1 4 (toggleRow 1 3 adminRow)).is_active = adminRow.is_active := by
  have h := toggle_status_involution ⟨[adminRow], 2⟩ 1 1 1 3 4 adminRow rfl
  exact ⟨h.1, h.2.1, h.2.2.2.1, h.2.2.2.2.1⟩

/-- C9: a PUT payload in which updated_by is set — a field the RoleUpdate
schema accepts, and present in the exclude_unset dump whether set to a value
or an explicit null — makes the values call raise TypeError, because
updated_by arrives both in the unpacked payload dump and as the explicit
keyword; the update performs nothing and the route answers with the 500
internal-error envelope instead of a partial update. -/
theorem update_with_updated_by_raises (db : Db) (rid now : Nat) (ru : RoleUpdate)
    (hset : ru.updated_by.isPresent = true) :
    (update_role db rid ru CURRENT_USER_ID now).2 = .error (.typeError updatedByTypeErrorMsg)
    ∧ (update_role db rid ru CURRENT_USER_ID now).1 = db
    ∧ update_role_route db rid ru now =
        (db, wrap_response Json.null ("Internal server error: " ++ updatedByTypeErrorMsg) 500)
    ∧ (update_role_route db rid ru now).2.statusCode = 500 := by
  refine ⟨?_, ?_, ?_, ?_⟩
  · simp [update_role, hset]
  · simp [update_role, hset]
  · simp [update_role_route, update_role, hset, handleRouteExc, general_exception_handler,
      PyExc.strForm]
  · simp [update_role_route, update_role, hset, handleRouteExc, general_exception_handler,
      PyExc.strForm, wrap_response]

/-- Witness for C9: a payload setting only updated_by against the sample
table. -/
theorem update_with_updated_by_raises_witness :
    (update_role ⟨[adminRow], 2⟩ 1 ⟨.unset, .unset, .set 7, .unset⟩ CURRENT_USER_ID 3).2 =
      .error (.typeError updatedByTypeErrorMsg)
    ∧ update_role_route ⟨[adminRow], 2⟩ 1 ⟨.unset, .unset, .set 7, .unset⟩ 3 =
        (⟨[adminRow], 2⟩,
         wrap_response Json.null ("Internal server error: " ++ updatedByTypeErrorMsg) 500)
    ∧ (update_role_route ⟨[adminRow], 2⟩ 1 ⟨.unset, .unset, .set 7, .unset⟩ 3).2.statusCode =
        500 := by
  have h := update_with_updated_by_raises ⟨[adminRow], 2⟩ 1 3 ⟨.unset, .unset, .set 7, .unset⟩
    rfl
  exact ⟨h.1, h.2.2.1, h.2.2.2⟩

/-- C10: the created row does not depend on the request body's created_by:
two valid create payloads differing only in created_by produce identical
route outcomes, and on success the single inserted row carries created_by
equal to the hardcoded current-user id 1; the body field is validated but
ignored. -/
theorem create_ignores_body_created_by (db : Db) (p1 p2 : RoleCreate) (now : Nat)
    (hn : p1.name = p2.name) (hd : p1.description = p2.description)
    (hv1 : p1.isValid = true) (hv2 : p2.isValid = true) :
    create_role_route db [] p1 now = create_role_route db [] p2 now
    ∧ (∀ db2 d, create_role db [] p1 CURRENT_USER_ID now = (db2, .ok d) →
        ∃ newRow, db2.rows = db.rows ++ [newRow]
          ∧ newRow.created_by = some CURRENT_USER_ID ∧ CURRENT_USER_ID = 1) := by
  obtain ⟨n1, d1, c1⟩ := p1
  obtain ⟨n2, d2, c2⟩ := p2
  simp only [RoleCreate.mk.injEq] at *
  subst hn
  subst hd
  refine ⟨rfl, ?_⟩
  intro db2 d h
  by_cases h1 : db.rows.any (fun s => s.name == n1) = true
  · simp [create_role, h1] at h
  · simp only [Bool.not_eq_true] at h1
    simp [create_role, h1, insertRole] at h
    refine ⟨⟨db.nextId, n1, d1, some CURRENT_USER_ID, now, none, now, true⟩, ?_, rfl, rfl⟩
    rw [← h.1]

/-- Witness for C10: two valid payloads, identical except that one sets
created_by to 7 and the other leaves it out. -/
theorem create_ignores_body_created_by_witness :
    create_role_route ⟨[adminRow], 2⟩ [] ⟨"Editor", some "Can edit", none⟩ 4 =
      create_role_route ⟨[adminRow], 2⟩ [] ⟨"Editor", some "Can edit", some 7⟩ 4
    ∧ (∀ db2 d,
        create_role ⟨[adminRow], 2⟩ [] ⟨"Editor", some "Can edit", none⟩ CURRENT_USER_ID 4 =
          (db2, .ok d) →
        ∃ newRow, db2.rows = [adminRow] ++ [newRow]
          ∧ newRow.created_by = some CURRENT_USER_ID ∧ CURRENT_USER_ID = 1) :=
  create_ignores_body_created_by ⟨[adminRow], 2⟩ ⟨"Editor", some "Can edit", none⟩
    ⟨"Editor", some "Can edit", some 7⟩ 4 rfl rfl (by decide) (by decide)

end WlfaiOne
